import Mathlib

/-!
Verification of keystatus.c, a status reporter for keyboard modifier
state.  The program renders the latched/locked modifier bitmasks and the
sticky-keys / AccessX-keys control bits to a single space-separated line,
then blocks on Xkb events, suppressing state-notify events that leave the
four modifier fields unchanged and draining queued events before each
reprint.  The definitions below embed the program; the theorems settle
the specification claims.
-/

namespace Keystatus

/-- An entry of the modifier table of keystatus.c: a modifier bit and the
words printed when that modifier is latched resp. locked. -/
structure ModifierEntry where
  value : Nat
  latched : String
  locked : String
deriving DecidableEq

/-- The table `mods` of keystatus.c, without the all-zero sentinel entry that
only terminates the C iteration. -/
def mods : List ModifierEntry :=
  [⟨1, "shift", "SHIFT"⟩, ⟨1 <<< 2, "ctrl", "CTRL"⟩,
   ⟨1 <<< 3, "alt", "ALT"⟩, ⟨1 <<< 6, "super", "SUPER"⟩]

/-- The four modifier fields of the XkbStateRec structure that keystatus.c
reads and compares. -/
structure XkbStateRec where
  mods : Nat
  base_mods : Nat
  latched_mods : Nat
  locked_mods : Nat
deriving DecidableEq

/-- The XkbStickyKeysMask constant of the XKB headers. -/
def XkbStickyKeysMask : Nat := 1 <<< 3

/-- The XkbAccessXKeysMask constant of the XKB headers. -/
def XkbAccessXKeysMask : Nat := 1 <<< 6

/-- The Xlib Success status code. -/
def Success : Nat := 0

/-- The print_word helper of keystatus.c.  The state pair is the standard
output produced so far together with the is_first flag. -/
def print_word (word : String) (st : String × Bool) : String × Bool :=
  if st.2 then (st.1 ++ word, false) else (st.1 ++ " " ++ word, false)

/-- The modifier loop of main (lines 93-99): fold over the table, printing
the latched word when the latched bit is set, else the locked word when the
locked bit is set. -/
def modPart (latched_mods locked_mods : Nat) : String × Bool :=
  mods.foldl (fun st e =>
    if latched_mods &&& e.value ≠ 0 then print_word e.latched st
    else if locked_mods &&& e.value ≠ 0 then print_word e.locked st
    else st) ("", true)

/-- The full status line printed by one iteration of the main loop of
keystatus.c: the modifier words, then "sticky" when the sticky-keys control
is enabled, then "accessx" when the AccessX-keys control is enabled, then a
newline. -/
def statusLine (state : XkbStateRec) (enabled_ctrls : Nat) : String :=
  let st := modPart state.latched_mods state.locked_mods
  let st := if enabled_ctrls &&& XkbStickyKeysMask ≠ 0 then print_word "sticky" st else st
  let st := if enabled_ctrls &&& XkbAccessXKeysMask ≠ 0 then print_word "accessx" st else st
  st.1 ++ "\n"

/-- The word contributed by one table entry: the body of the loop at lines
93-99 of keystatus.c, viewed as an optional word. -/
def entryWord (latched_mods locked_mods : Nat) (e : ModifierEntry) : Option String :=
  if latched_mods &&& e.value ≠ 0 then some e.latched
  else if locked_mods &&& e.value ≠ 0 then some e.locked
  else none

/-- The modifier words of a status line, in table order. -/
def modWords (latched_mods locked_mods : Nat) : List String :=
  mods.filterMap (entryWord latched_mods locked_mods)

/-- The control words of a status line: "sticky" then "accessx", as enabled. -/
def ctrlWords (enabled_ctrls : Nat) : List String :=
  (if enabled_ctrls &&& XkbStickyKeysMask ≠ 0 then ["sticky"] else []) ++
  (if enabled_ctrls &&& XkbAccessXKeysMask ≠ 0 then ["accessx"] else [])

/-- All words of a status line, in output order. -/
def lineWords (latched_mods locked_mods enabled_ctrls : Nat) : List String :=
  modWords latched_mods locked_mods ++ ctrlWords enabled_ctrls

/-- A single space before every word after the first. -/
def joinTail : List String → String
  | [] => ""
  | w :: ws => " " ++ w ++ joinTail ws

/-- Words joined by exactly one space: no leading and no trailing space. -/
def joinWords : List String → String
  | [] => ""
  | w :: ws => w ++ joinTail ws

/-- Folding print_word over a word list, starting from an arbitrary
output/first-flag state. -/
def emitWords (ws : List String) (st : String × Bool) : String × Bool :=
  ws.foldl (fun st w => print_word w st) st

lemma emitWords_append (xs ys : List String) (st : String × Bool) :
    emitWords (xs ++ ys) st = emitWords ys (emitWords xs st) :=
  List.foldl_append _ _ _ _

lemma str_empty_append (s : String) : "" ++ s = s := by
  cases s
  rfl

lemma emitWords_false (ws : List String) (out : String) :
    emitWords ws (out, false) = (out ++ joinTail ws, false) := by
  induction ws generalizing out with
  | nil =>
      show (out, false) = (out ++ "", false)
      cases out
      simp [joinTail, String.append]
  | cons w ws ih =>
      show emitWords ws (out ++ " " ++ w, false) = _
      rw [ih]
      simp [joinTail, String.append_assoc]

lemma emitWords_join (ws : List String) :
    (emitWords ws ("", true)).1 = joinWords ws := by
  cases ws with
  | nil => rfl
  | cons w ws =>
      show (emitWords ws ("" ++ w, false)).1 = _
      rw [str_empty_append, emitWords_false]
      rfl

lemma foldl_entry_eq (latched_mods locked_mods : Nat) (l : List ModifierEntry)
    (st : String × Bool) :
    l.foldl (fun st e =>
      if latched_mods &&& e.value ≠ 0 then print_word e.latched st
      else if locked_mods &&& e.value ≠ 0 then print_word e.locked st
      else st) st
    = emitWords (l.filterMap (entryWord latched_mods locked_mods)) st := by
  induction l generalizing st with
  | nil => rfl
  | cons e l ih =>
      simp only [List.foldl_cons, List.filterMap_cons, entryWord]
      split_ifs with h1 h2 <;> rw [ih] <;> rfl

lemma modPart_eq (latched_mods locked_mods : Nat) :
    modPart latched_mods locked_mods
    = emitWords (modWords latched_mods locked_mods) ("", true) :=
  foldl_entry_eq latched_mods locked_mods mods ("", true)

/-- The status line is the words of `lineWords`, joined by single spaces,
followed by a newline. -/
theorem statusLine_eq (s : XkbStateRec) (c : Nat) :
    statusLine s c
    = joinWords (lineWords s.latched_mods s.locked_mods c) ++ "\n" := by
  have h1 : statusLine s c
      = (emitWords (ctrlWords c)
          (emitWords (modWords s.latched_mods s.locked_mods) ("", true))).1
        ++ "\n" := by
    simp only [statusLine, modPart_eq, ctrlWords]
    split_ifs <;> rfl
  rw [h1, ← emitWords_append, emitWords_join, lineWords]

lemma entryWord_some (latched_mods locked_mods : Nat) (e : ModifierEntry) (w : String) :
    entryWord latched_mods locked_mods e = some w ↔
      (latched_mods &&& e.value ≠ 0 ∧ w = e.latched) ∨
      (latched_mods &&& e.value = 0 ∧ locked_mods &&& e.value ≠ 0 ∧ w = e.locked) := by
  unfold entryWord
  split_ifs with h1 h2 <;> simp_all [eq_comm]

lemma mem_modWords_iff (latched_mods locked_mods : Nat) (w : String) :
    w ∈ modWords latched_mods locked_mods ↔
      ∃ e ∈ mods, entryWord latched_mods locked_mods e = some w := by
  simp [modWords, List.mem_filterMap]

lemma mem_ctrlWords_iff (enabled_ctrls : Nat) (w : String) :
    w ∈ ctrlWords enabled_ctrls ↔
      (enabled_ctrls &&& XkbStickyKeysMask ≠ 0 ∧ w = "sticky") ∨
      (enabled_ctrls &&& XkbAccessXKeysMask ≠ 0 ∧ w = "accessx") := by
  unfold ctrlWords
  split_ifs with h1 h2 <;> simp_all

/-- Claim C1 counterexample: with latched = shift-bit|alt-bit, locked =
ctrl-bit, sticky keys enabled and AccessX keys disabled, the program does
not print the line claimed by the spec: the table orders ctrl before alt,
so the printed line is "shift CTRL alt sticky". -/
theorem c1_worked_example_counterexample :
    statusLine ⟨0, 0, 1 ||| (1 <<< 3), 1 <<< 2⟩ XkbStickyKeysMask
      ≠ "shift alt CTRL sticky\n" := by
  decide

/-- Claim C1 (amended): for latched = shift-bit|alt-bit, locked = ctrl-bit,
and any enabled-controls mask with sticky keys on and AccessX keys off, the
status-line computation outputs exactly "shift CTRL alt sticky" followed by
a newline. -/
theorem c1_worked_example (m b c : Nat)
    (hs : c &&& XkbStickyKeysMask ≠ 0) (ha : c &&& XkbAccessXKeysMask = 0) :
    statusLine ⟨m, b, 1 ||| (1 <<< 3), 1 <<< 2⟩ c = "shift CTRL alt sticky\n" := by
  simp only [statusLine]
  rw [if_pos hs, if_neg (not_not_intro ha)]
  rfl

/-- Witness for the amended claim C1 at the concrete controls mask
XkbStickyKeysMask. -/
theorem c1_worked_example_witness :
    statusLine ⟨0, 0, 1 ||| (1 <<< 3), 1 <<< 2⟩ XkbStickyKeysMask
      = "shift CTRL alt sticky\n" :=
  c1_worked_example 0 0 XkbStickyKeysMask (by decide) (by decide)

/-- Claim C3: every status line is the applicable words joined by exactly one
space (no leading or trailing space, as expressed by joinWords) followed by a
newline, and if no table bit is set in either mask and neither control is
enabled the output is exactly the newline. -/
theorem c3_line_format (s : XkbStateRec) (c : Nat) :
    statusLine s c = joinWords (lineWords s.latched_mods s.locked_mods c) ++ "\n" ∧
    ((∀ e ∈ mods, s.latched_mods &&& e.value = 0 ∧ s.locked_mods &&& e.value = 0) →
      c &&& XkbStickyKeysMask = 0 → c &&& XkbAccessXKeysMask = 0 →
      statusLine s c = "\n") := by
  refine ⟨statusLine_eq s c, fun hm hs ha => ?_⟩
  have h1 : s.latched_mods &&& 1 = 0 ∧ s.locked_mods &&& 1 = 0 :=
    hm ⟨1, "shift", "SHIFT"⟩ (by simp [mods])
  have h2 : s.latched_mods &&& 4 = 0 ∧ s.locked_mods &&& 4 = 0 :=
    hm ⟨1 <<< 2, "ctrl", "CTRL"⟩ (by simp [mods])
  have h3 : s.latched_mods &&& 8 = 0 ∧ s.locked_mods &&& 8 = 0 :=
    hm ⟨1 <<< 3, "alt", "ALT"⟩ (by simp [mods])
  have h4 : s.latched_mods &&& 64 = 0 ∧ s.locked_mods &&& 64 = 0 :=
    hm ⟨1 <<< 6, "super", "SUPER"⟩ (by simp [mods])
  have hw : modWords s.latched_mods s.locked_mods = [] := by
    simp [modWords, mods, entryWord, h1.1, h1.2, h2.1, h2.2, h3.1, h3.2, h4.1, h4.2]
  rw [statusLine_eq]
  simp [lineWords, ctrlWords, hs, ha, hw, joinWords, str_empty_append]

/-- Witness for claim C3 at the all-zero state. -/
theorem c3_line_format_witness : statusLine ⟨0, 0, 0, 0⟩ 0 = "\n" :=
  (c3_line_format ⟨0, 0, 0, 0⟩ 0).2 (by decide) (by decide) (by decide)


lemma mem_lineWords_iff (la lo c : Nat) (w : String) :
    w ∈ lineWords la lo c ↔
      ((la &&& 1 ≠ 0 ∧ w = "shift") ∨ (la &&& 1 = 0 ∧ lo &&& 1 ≠ 0 ∧ w = "SHIFT") ∨
       (la &&& 4 ≠ 0 ∧ w = "ctrl") ∨ (la &&& 4 = 0 ∧ lo &&& 4 ≠ 0 ∧ w = "CTRL") ∨
       (la &&& 8 ≠ 0 ∧ w = "alt") ∨ (la &&& 8 = 0 ∧ lo &&& 8 ≠ 0 ∧ w = "ALT") ∨
       (la &&& 64 ≠ 0 ∧ w = "super") ∨ (la &&& 64 = 0 ∧ lo &&& 64 ≠ 0 ∧ w = "SUPER") ∨
       (c &&& 8 ≠ 0 ∧ w = "sticky") ∨ (c &&& 64 ≠ 0 ∧ w = "accessx")) := by
  simp [lineWords, mem_modWords_iff, mem_ctrlWords_iff, mods, entryWord_some,
    XkbStickyKeysMask, XkbAccessXKeysMask, or_assoc]

/-- Claim C2: for every table entry and masks, if the entry's bit is set in
both the latched and the locked mask then the entry contributes its latched
word, the latched word is on the line and the locked word is not; the locked
word is on the line exactly when the locked bit is set and the latched bit is
clear; an entry with neither bit set contributes no word. -/
theorem c2_latched_priority (e : ModifierEntry) (he : e ∈ mods)
    (latched_mods locked_mods enabled_ctrls : Nat) :
    (latched_mods &&& e.value ≠ 0 ∧ locked_mods &&& e.value ≠ 0 →
      entryWord latched_mods locked_mods e = some e.latched ∧
      e.latched ∈ lineWords latched_mods locked_mods enabled_ctrls ∧
      e.locked ∉ lineWords latched_mods locked_mods enabled_ctrls) ∧
    (e.locked ∈ lineWords latched_mods locked_mods enabled_ctrls ↔
      locked_mods &&& e.value ≠ 0 ∧ latched_mods &&& e.value = 0) ∧
    (latched_mods &&& e.value = 0 ∧ locked_mods &&& e.value = 0 →
      entryWord latched_mods locked_mods e = none) := by
  simp only [mods, List.mem_cons, List.not_mem_nil, or_false] at he
  rcases he with rfl | rfl | rfl | rfl
  · refine ⟨fun h => ?_, ?_, fun h => ?_⟩
    · obtain ⟨hl, hk⟩ := h
      refine ⟨?_, ?_, ?_⟩
      · unfold entryWord
        rw [if_pos hl]
      · rw [mem_lineWords_iff]
        exact Or.inl ⟨hl, rfl⟩
      · rw [mem_lineWords_iff]
        rintro (⟨h1, h2⟩ | ⟨h1, h2, h3⟩ | ⟨h1, h2⟩ | ⟨h1, h2, h3⟩ | ⟨h1, h2⟩ | ⟨h1, h2, h3⟩ | ⟨h1, h2⟩ | ⟨h1, h2, h3⟩ | ⟨h1, h2⟩ | ⟨h1, h2⟩) <;>
          first
            | exact hl h1
            | exact absurd h2 (by decide)
            | exact absurd h3 (by decide)
    · rw [mem_lineWords_iff]
      constructor
      · rintro (⟨h1, h2⟩ | ⟨h1, h2, h3⟩ | ⟨h1, h2⟩ | ⟨h1, h2, h3⟩ | ⟨h1, h2⟩ | ⟨h1, h2, h3⟩ | ⟨h1, h2⟩ | ⟨h1, h2, h3⟩ | ⟨h1, h2⟩ | ⟨h1, h2⟩) <;>
          first
            | exact ⟨h2, h1⟩
            | exact absurd h2 (by decide)
            | exact absurd h3 (by decide)
      · rintro ⟨hk2, hz⟩
        exact Or.inr (Or.inl ⟨hz, hk2, rfl⟩)
    · unfold entryWord
      rw [if_neg (not_not_intro h.1), if_neg (not_not_intro h.2)]
  · refine ⟨fun h => ?_, ?_, fun h => ?_⟩
    · obtain ⟨hl, hk⟩ := h
      refine ⟨?_, ?_, ?_⟩
      · unfold entryWord
        rw [if_pos hl]
      · rw [mem_lineWords_iff]
        exact Or.inr (Or.inr (Or.inl ⟨hl, rfl⟩))
      · rw [mem_lineWords_iff]
        rintro (⟨h1, h2⟩ | ⟨h1, h2, h3⟩ | ⟨h1, h2⟩ | ⟨h1, h2, h3⟩ | ⟨h1, h2⟩ | ⟨h1, h2, h3⟩ | ⟨h1, h2⟩ | ⟨h1, h2, h3⟩ | ⟨h1, h2⟩ | ⟨h1, h2⟩) <;>
          first
            | exact hl h1
            | exact absurd h2 (by decide)
            | exact absurd h3 (by decide)
    · rw [mem_lineWords_iff]
      constructor
      · rintro (⟨h1, h2⟩ | ⟨h1, h2, h3⟩ | ⟨h1, h2⟩ | ⟨h1, h2, h3⟩ | ⟨h1, h2⟩ | ⟨h1, h2, h3⟩ | ⟨h1, h2⟩ | ⟨h1, h2, h3⟩ | ⟨h1, h2⟩ | ⟨h1, h2⟩) <;>
          first
            | exact ⟨h2, h1⟩
            | exact absurd h2 (by decide)
            | exact absurd h3 (by decide)
      · rintro ⟨hk2, hz⟩
        exact Or.inr (Or.inr (Or.inr (Or.inl ⟨hz, hk2, rfl⟩)))
    · unfold entryWord
      rw [if_neg (not_not_intro h.1), if_neg (not_not_intro h.2)]
  · refine ⟨fun h => ?_, ?_, fun h => ?_⟩
    · obtain ⟨hl, hk⟩ := h
      refine ⟨?_, ?_, ?_⟩
      · unfold entryWord
        rw [if_pos hl]
      · rw [mem_lineWords_iff]
        exact Or.inr (Or.inr (Or.inr (Or.inr (Or.inl ⟨hl, rfl⟩))))
      · rw [mem_lineWords_iff]
        rintro (⟨h1, h2⟩ | ⟨h1, h2, h3⟩ | ⟨h1, h2⟩ | ⟨h1, h2, h3⟩ | ⟨h1, h2⟩ | ⟨h1, h2, h3⟩ | ⟨h1, h2⟩ | ⟨h1, h2, h3⟩ | ⟨h1, h2⟩ | ⟨h1, h2⟩) <;>
          first
            | exact hl h1
            | exact absurd h2 (by decide)
            | exact absurd h3 (by decide)
    · rw [mem_lineWords_iff]
      constructor
      · rintro (⟨h1, h2⟩ | ⟨h1, h2, h3⟩ | ⟨h1, h2⟩ | ⟨h1, h2, h3⟩ | ⟨h1, h2⟩ | ⟨h1, h2, h3⟩ | ⟨h1, h2⟩ | ⟨h1, h2, h3⟩ | ⟨h1, h2⟩ | ⟨h1, h2⟩) <;>
          first
            | exact ⟨h2, h1⟩
            | exact absurd h2 (by decide)
            | exact absurd h3 (by decide)
      · rintro ⟨hk2, hz⟩
        exact Or.inr (Or.inr (Or.inr (Or.inr (Or.inr (Or.inl ⟨hz, hk2, rfl⟩)))))
    · unfold entryWord
      rw [if_neg (not_not_intro h.1), if_neg (not_not_intro h.2)]
  · refine ⟨fun h => ?_, ?_, fun h => ?_⟩
    · obtain ⟨hl, hk⟩ := h
      refine ⟨?_, ?_, ?_⟩
      · unfold entryWord
        rw [if_pos hl]
      · rw [mem_lineWords_iff]
        exact Or.inr (Or.inr (Or.inr (Or.inr (Or.inr (Or.inr (Or.inl ⟨hl, rfl⟩))))))
      · rw [mem_lineWords_iff]
        rintro (⟨h1, h2⟩ | ⟨h1, h2, h3⟩ | ⟨h1, h2⟩ | ⟨h1, h2, h3⟩ | ⟨h1, h2⟩ | ⟨h1, h2, h3⟩ | ⟨h1, h2⟩ | ⟨h1, h2, h3⟩ | ⟨h1, h2⟩ | ⟨h1, h2⟩) <;>
          first
            | exact hl h1
            | exact absurd h2 (by decide)
            | exact absurd h3 (by decide)
    · rw [mem_lineWords_iff]
      constructor
      · rintro (⟨h1, h2⟩ | ⟨h1, h2, h3⟩ | ⟨h1, h2⟩ | ⟨h1, h2, h3⟩ | ⟨h1, h2⟩ | ⟨h1, h2, h3⟩ | ⟨h1, h2⟩ | ⟨h1, h2, h3⟩ | ⟨h1, h2⟩ | ⟨h1, h2⟩) <;>
          first
            | exact ⟨h2, h1⟩
            | exact absurd h2 (by decide)
            | exact absurd h3 (by decide)
      · rintro ⟨hk2, hz⟩
        exact Or.inr (Or.inr (Or.inr (Or.inr (Or.inr (Or.inr (Or.inr (Or.inl ⟨hz, hk2, rfl⟩)))))))
    · unfold entryWord
      rw [if_neg (not_not_intro h.1), if_neg (not_not_intro h.2)]

/-- Witness for claim C2 at the shift entry with both bits set. -/
theorem c2_latched_priority_witness :
    entryWord 1 1 ⟨1, "shift", "SHIFT"⟩ = some "shift" ∧
    "shift" ∈ lineWords 1 1 0 ∧ "SHIFT" ∉ lineWords 1 1 0 :=
  (c2_latched_priority ⟨1, "shift", "SHIFT"⟩ (by decide) 1 1 0).1
    ⟨by decide, by decide⟩

lemma sticky_not_mem_modWords (la lo : Nat) : "sticky" ∉ modWords la lo := by
  intro h
  rw [mem_modWords_iff] at h
  obtain ⟨e, he, hw⟩ := h
  simp only [mods, List.mem_cons, List.not_mem_nil, or_false] at he
  rcases he with rfl | rfl | rfl | rfl <;>
    · rw [entryWord_some] at hw
      rcases hw with ⟨_, hw⟩ | ⟨_, _, hw⟩ <;> exact absurd hw (by decide)

lemma accessx_not_mem_modWords (la lo : Nat) : "accessx" ∉ modWords la lo := by
  intro h
  rw [mem_modWords_iff] at h
  obtain ⟨e, he, hw⟩ := h
  simp only [mods, List.mem_cons, List.not_mem_nil, or_false] at he
  rcases he with rfl | rfl | rfl | rfl <;>
    · rw [entryWord_some] at hw
      rcases hw with ⟨_, hw⟩ | ⟨_, _, hw⟩ <;> exact absurd hw (by decide)

/-- Claim C4: when the sticky-keys control bit is enabled, "sticky" occurs
exactly once, right after all modifier words; when the AccessX-keys control
bit is enabled, "accessx" occurs exactly once and is the last word. -/
theorem c4_sticky_accessx (la lo c : Nat) :
    (c &&& XkbStickyKeysMask ≠ 0 →
      (lineWords la lo c).count "sticky" = 1 ∧
      lineWords la lo c = modWords la lo ++
        "sticky" :: (if c &&& XkbAccessXKeysMask ≠ 0 then ["accessx"] else []) ∧
      "sticky" ∉ modWords la lo) ∧
    (c &&& XkbAccessXKeysMask ≠ 0 →
      (lineWords la lo c).count "accessx" = 1 ∧
      ∃ pre, lineWords la lo c = pre ++ ["accessx"] ∧ "accessx" ∉ pre) := by
  constructor
  · intro hs
    have hns := sticky_not_mem_modWords la lo
    have hdec : lineWords la lo c = modWords la lo ++
        "sticky" :: (if c &&& XkbAccessXKeysMask ≠ 0 then ["accessx"] else []) := by
      unfold lineWords ctrlWords
      rw [if_pos hs, List.singleton_append]
    refine ⟨?_, hdec, hns⟩
    rw [hdec, List.count_append, List.count_eq_zero.mpr hns]
    by_cases hx : c &&& XkbAccessXKeysMask ≠ 0
    · rw [if_pos hx]
      decide
    · rw [if_neg hx]
      decide
  · intro hx
    have hax : "accessx" ∉ (modWords la lo ++
        if c &&& XkbStickyKeysMask ≠ 0 then ["sticky"] else []) := by
      intro hmem
      rcases List.mem_append.mp hmem with hm | hm
      · exact accessx_not_mem_modWords la lo hm
      · revert hm
        split_ifs <;> decide
    have hdec : lineWords la lo c = (modWords la lo ++
        (if c &&& XkbStickyKeysMask ≠ 0 then ["sticky"] else [])) ++ ["accessx"] := by
      unfold lineWords ctrlWords
      rw [if_pos hx, List.append_assoc]
    refine ⟨?_, _, hdec, hax⟩
    rw [hdec, List.count_append, List.count_eq_zero.mpr hax]
    decide

/-- Witness for claim C4 with both controls enabled. -/
theorem c4_sticky_accessx_witness :
    (lineWords 0 0 72).count "sticky" = 1 ∧ (lineWords 0 0 72).count "accessx" = 1 :=
  ⟨((c4_sticky_accessx 0 0 72).1 (by decide)).1,
   ((c4_sticky_accessx 0 0 72).2 (by decide)).1⟩

/-- Claim C9: the status line depends only on bits 1, 1 <<< 2, 1 <<< 3 and
1 <<< 6 of the latched and locked masks and on the sticky-keys and
AccessX-keys bits of the enabled-controls mask: two states agreeing on those
bits render identical lines. -/
theorem c9_table_bits_only (s1 s2 : XkbStateRec) (c1 c2 : Nat)
    (hl1 : s1.latched_mods &&& 1 = s2.latched_mods &&& 1)
    (hl2 : s1.latched_mods &&& (1 <<< 2) = s2.latched_mods &&& (1 <<< 2))
    (hl3 : s1.latched_mods &&& (1 <<< 3) = s2.latched_mods &&& (1 <<< 3))
    (hl4 : s1.latched_mods &&& (1 <<< 6) = s2.latched_mods &&& (1 <<< 6))
    (hk1 : s1.locked_mods &&& 1 = s2.locked_mods &&& 1)
    (hk2 : s1.locked_mods &&& (1 <<< 2) = s2.locked_mods &&& (1 <<< 2))
    (hk3 : s1.locked_mods &&& (1 <<< 3) = s2.locked_mods &&& (1 <<< 3))
    (hk4 : s1.locked_mods &&& (1 <<< 6) = s2.locked_mods &&& (1 <<< 6))
    (hc1 : c1 &&& XkbStickyKeysMask = c2 &&& XkbStickyKeysMask)
    (hc2 : c1 &&& XkbAccessXKeysMask = c2 &&& XkbAccessXKeysMask) :
    statusLine s1 c1 = statusLine s2 c2 := by
  simp only [statusLine, modPart, mods, List.foldl_cons, List.foldl_nil]
  rw [hl1, hl2, hl3, hl4, hk1, hk2, hk3, hk4, hc1, hc2]

/-- Witness for claim C9: the caps-lock bit (2), the mod2 bit (16) and a
non-rendered control bit (2) do not influence the output. -/
theorem c9_table_bits_only_witness :
    statusLine ⟨0, 0, 1, 0⟩ 0 = statusLine ⟨5, 7, 3, 16⟩ 2 :=
  c9_table_bits_only ⟨0, 0, 1, 0⟩ ⟨5, 7, 3, 16⟩ 0 2 (by decide) (by decide)
    (by decide) (by decide) (by decide) (by decide) (by decide) (by decide)
    (by decide) (by decide)

/-- An event as keystatus.c classifies it: a core event whose type differs
from the Xkb extension event type, or an Xkb event of one of the three
subscribed notify sub-types. -/
inductive XEvent where
  | core
  | stateNotify (s : XkbStateRec)
  | controlsNotify
  | accessXNotify
deriving DecidableEq

/-- The drain loop of keystatus.c (lines 128-131): consume every queued
event without processing it. -/
def drainEvents : List XEvent → List XEvent
  | [] => []
  | _ :: rest => drainEvents rest

/-- The event-wait loop of keystatus.c (lines 115-134), over the list of
events that will be delivered on the connection.  The snapshot is the
XkbStateRec fetched at the top of the current main-loop iteration.  The
result is none when the queue runs out with the loop still blocked, and
some remaining-queue when the loop breaks back to the main loop. -/
def waitForEvent (snap : XkbStateRec) : List XEvent → Option (List XEvent)
  | [] => none
  | e :: rest =>
    match e with
    | XEvent.core => waitForEvent snap rest
    | XEvent.stateNotify s =>
        if s.mods = snap.mods ∧ s.base_mods = snap.base_mods ∧
           s.latched_mods = snap.latched_mods ∧ s.locked_mods = snap.locked_mods then
          waitForEvent snap rest
        else some (drainEvents rest)
    | XEvent.controlsNotify => some (drainEvents rest)
    | XEvent.accessXNotify => some (drainEvents rest)

/-- An event makes the wait loop return to the main loop: it is an Xkb event
and, when a state notification, at least one of the four modifier fields
differs from the snapshot. -/
def qualifies (snap : XkbStateRec) : XEvent → Bool
  | XEvent.core => false
  | XEvent.stateNotify s =>
      decide (¬(s.mods = snap.mods ∧ s.base_mods = snap.base_mods ∧
        s.latched_mods = snap.latched_mods ∧ s.locked_mods = snap.locked_mods))
  | XEvent.controlsNotify => true
  | XEvent.accessXNotify => true

/-- The lines printed after a wait on the given queue: none while the wait
loop is still blocked, and exactly the line of the freshly re-fetched state
and controls once it returns. -/
def linesAfterBurst (snap : XkbStateRec) (queue : List XEvent)
    (next : XkbStateRec) (nextCtrls : Nat) : List String :=
  match waitForEvent snap queue with
  | none => []
  | some _ => [statusLine next nextCtrls]

lemma drainEvents_eq_nil (l : List XEvent) : drainEvents l = [] := by
  induction l with
  | nil => rfl
  | cons e rest ih => exact ih

/-- Claim C5: a state-notify event whose four modifier fields equal the
snapshot is discarded and waiting continues; a queue of only core events and
such identical notifications never makes the wait loop return, and no new
line is printed. -/
theorem c5_identical_state_notify_suppressed (snap next : XkbStateRec)
    (nextCtrls : Nat) (rest q : List XEvent)
    (hq : ∀ e ∈ q, e = XEvent.core ∨ e = XEvent.stateNotify snap) :
    waitForEvent snap (XEvent.stateNotify snap :: rest) = waitForEvent snap rest ∧
    waitForEvent snap q = none ∧
    linesAfterBurst snap q next nextCtrls = [] := by
  have hnone : waitForEvent snap q = none := by
    induction q with
    | nil => rfl
    | cons e q ih =>
        rcases hq e (List.mem_cons_self e q) with rfl | rfl
        · exact ih fun e he => hq e (List.mem_cons_of_mem _ he)
        · show (if _ ∧ _ ∧ _ ∧ _ then waitForEvent snap q else _) = none
          rw [if_pos ⟨rfl, rfl, rfl, rfl⟩]
          exact ih fun e he => hq e (List.mem_cons_of_mem _ he)
  refine ⟨?_, hnone, ?_⟩
  · show (if _ ∧ _ ∧ _ ∧ _ then waitForEvent snap rest else _) = waitForEvent snap rest
    rw [if_pos ⟨rfl, rfl, rfl, rfl⟩]
  · unfold linesAfterBurst
    rw [hnone]

/-- Witness for claim C5 on a one-event queue holding an identical
state notification. -/
theorem c5_identical_state_notify_suppressed_witness :
    waitForEvent ⟨0, 0, 0, 0⟩ [XEvent.stateNotify ⟨0, 0, 0, 0⟩, XEvent.core]
      = waitForEvent ⟨0, 0, 0, 0⟩ [XEvent.core] ∧
    waitForEvent ⟨0, 0, 0, 0⟩ [XEvent.stateNotify ⟨0, 0, 0, 0⟩, XEvent.core] = none ∧
    linesAfterBurst ⟨0, 0, 0, 0⟩ [XEvent.stateNotify ⟨0, 0, 0, 0⟩, XEvent.core]
      ⟨0, 0, 0, 0⟩ 0 = [] :=
  c5_identical_state_notify_suppressed ⟨0, 0, 0, 0⟩ ⟨0, 0, 0, 0⟩ 0
    [XEvent.core] [XEvent.stateNotify ⟨0, 0, 0, 0⟩, XEvent.core] (by decide)

/-- Claim C6: a controls-notify or AccessX-notify event makes the wait loop
return to the main loop regardless of the snapshot, and a new status line is
printed. -/
theorem c6_controls_notify_reports (snap next : XkbStateRec)
    (rest : List XEvent) (nextCtrls : Nat) :
    waitForEvent snap (XEvent.controlsNotify :: rest) = some [] ∧
    waitForEvent snap (XEvent.accessXNotify :: rest) = some [] ∧
    linesAfterBurst snap (XEvent.controlsNotify :: rest) next nextCtrls
      = [statusLine next nextCtrls] ∧
    linesAfterBurst snap (XEvent.accessXNotify :: rest) next nextCtrls
      = [statusLine next nextCtrls] := by
  have h1 : waitForEvent snap (XEvent.controlsNotify :: rest) = some [] := by
    show some (drainEvents rest) = some []
    rw [drainEvents_eq_nil]
  have h2 : waitForEvent snap (XEvent.accessXNotify :: rest) = some [] := by
    show some (drainEvents rest) = some []
    rw [drainEvents_eq_nil]
  refine ⟨h1, h2, ?_, ?_⟩ <;> unfold linesAfterBurst
  · rw [h1]
  · rw [h2]

/-- Claim C7: when the head of the queue is a qualifying event, the wait
loop returns with every remaining queued event drained unprocessed, so the
burst yields exactly one status line, and that line renders the state and
controls re-fetched after the drain. -/
theorem c7_burst_single_line (snap next : XkbStateRec) (e : XEvent)
    (rest : List XEvent) (nextCtrls : Nat) (h : qualifies snap e = true) :
    waitForEvent snap (e :: rest) = some [] ∧
    linesAfterBurst snap (e :: rest) next nextCtrls = [statusLine next nextCtrls] := by
  have hw : waitForEvent snap (e :: rest) = some [] := by
    cases e with
    | core => exact absurd h (by simp [qualifies])
    | stateNotify s =>
        have hne := of_decide_eq_true h
        show (if _ ∧ _ ∧ _ ∧ _ then _ else some (drainEvents rest)) = some []
        rw [if_neg hne, drainEvents_eq_nil]
    | controlsNotify =>
        show some (drainEvents rest) = some []
        rw [drainEvents_eq_nil]
    | accessXNotify =>
        show some (drainEvents rest) = some []
        rw [drainEvents_eq_nil]
  refine ⟨hw, ?_⟩
  unfold linesAfterBurst
  rw [hw]

/-- Witness for claim C7: a changed state notification followed by two more
queued events yields one line for the re-fetched state. -/
theorem c7_burst_single_line_witness :
    waitForEvent ⟨0, 0, 0, 0⟩
      [XEvent.stateNotify ⟨1, 0, 0, 0⟩, XEvent.core, XEvent.controlsNotify]
      = some [] ∧
    linesAfterBurst ⟨0, 0, 0, 0⟩
      [XEvent.stateNotify ⟨1, 0, 0, 0⟩, XEvent.core, XEvent.controlsNotify]
      ⟨0, 0, 1, 0⟩ 0 = [statusLine ⟨0, 0, 1, 0⟩ 0] :=
  c7_burst_single_line ⟨0, 0, 0, 0⟩ ⟨0, 0, 1, 0⟩ (XEvent.stateNotify ⟨1, 0, 0, 0⟩)
    [XEvent.core, XEvent.controlsNotify] 0 (by decide)

/-- The single-quote character used in the XkbGetKeyboard error message. -/
def squote : String := String.mk [Char.ofNat 39]

/-- The responses of the X server to the three initialization calls of
keystatus.c: XkbOpenDisplay, XkbGetKeyboard and XkbSelectEvents, plus the
DISPLAY name used in error messages. -/
structure XEnv where
  displayOpens : Bool
  display : String
  getKeyboardOk : Bool
  selectEventsOk : Bool

/-- The responses of the X server during one iteration of the main loop:
the state filled in by XkbGetState together with its discarded return
status, the XkbGetControls status and the fetched enabled_ctrls mask, and
the events delivered while waiting. -/
structure IterInput where
  state : XkbStateRec
  getStateStatus : Nat
  ctrlStatus : Nat
  enabled_ctrls : Nat
  events : List XEvent

/-- The steady-state loop of keystatus.c (lines 88-135) over the per-
iteration server responses: returns the standard-output strings, the
standard-error lines, and the exit code (none while the loop is still
running or blocked).  The XkbGetState return status is never consulted.
On a failed XkbGetControls call the modifier words already written to
standard output are flushed by exit, the diagnostic is printed and the
process exits 1. -/
def runLoop : List IterInput → List String × List String × Option Nat
  | [] => ([], [], none)
  | it :: rest =>
    if it.ctrlStatus ≠ Success then
      ([(modPart it.state.latched_mods it.state.locked_mods).1],
       ["XkbGetControls() returned " ++ toString it.ctrlStatus], some 1)
    else
      match waitForEvent it.state it.events with
      | none => ([statusLine it.state it.enabled_ctrls], [], none)
      | some _ =>
          match runLoop rest with
          | (outs, errs, code) => (statusLine it.state it.enabled_ctrls :: outs, errs, code)

/-- The whole program: the three checked initialization calls of
keystatus.c in order, then the steady-state loop. -/
def runProgram (env : XEnv) (iters : List IterInput) :
    List String × List String × Option Nat :=
  if env.displayOpens = false then
    ([], ["Failed to initialize Xkb extension for display " ++ env.display ++ "\n"],
     some 1)
  else if env.getKeyboardOk = false then
    ([], ["XkbGetKeyboard() failed for display " ++ squote ++ env.display ++ squote
          ++ "\n"], some 1)
  else if env.selectEventsOk = false then
    ([], ["XkbSelectEvents() failed\n"], some 1)
  else runLoop iters

lemma runLoop_exit (iters : List IterInput) (outs errs : List String) (code : Nat)
    (h : runLoop iters = (outs, errs, some code)) :
    code = 1 ∧ ∃ it ∈ iters, it.ctrlStatus ≠ Success := by
  induction iters generalizing outs errs code with
  | nil => simp [runLoop] at h
  | cons it rest ih =>
      rw [runLoop] at h
      by_cases hc : it.ctrlStatus ≠ Success
      · rw [if_pos hc] at h
        simp only [Prod.mk.injEq, Option.some.injEq] at h
        exact ⟨h.2.2.symm, it, List.mem_cons_self it rest, hc⟩
      · rw [if_neg hc] at h
        cases hw : waitForEvent it.state it.events with
        | none =>
            rw [hw] at h
            simp at h
        | some rem =>
            rw [hw] at h
            rcases hrl : runLoop rest with ⟨o, e2, c2⟩
            rw [hrl] at h
            simp only [Prod.mk.injEq] at h
            obtain ⟨hcode, ⟨it2, hm, hc2⟩⟩ :=
              ih o e2 code (by rw [hrl, h.2.1, h.2.2])
            exact ⟨hcode, it2, List.mem_cons_of_mem _ hm, hc2⟩

lemma runLoop_ok (iters : List IterInput)
    (h : ∀ it ∈ iters, it.ctrlStatus = Success) :
    (runLoop iters).2.1 = [] ∧ (runLoop iters).2.2 = none := by
  induction iters with
  | nil => exact ⟨rfl, rfl⟩
  | cons it rest ih =>
      rw [runLoop,
        if_neg (not_not_intro (h it (List.mem_cons_self it rest)))]
      cases hw : waitForEvent it.state it.events with
      | none => exact ⟨rfl, rfl⟩
      | some rem =>
          rcases hrl : runLoop rest with ⟨o, e2, c2⟩
          have hr := ih fun it2 hm => h it2 (List.mem_cons_of_mem _ hm)
          rw [hrl] at hr
          exact hr

lemma runLoop_ignores_state_status (g : IterInput → Nat) (iters : List IterInput) :
    runLoop (iters.map fun it => { it with getStateStatus := g it }) = runLoop iters := by
  induction iters with
  | nil => rfl
  | cons it rest ih =>
      simp only [List.map_cons, runLoop]
      rw [ih]

/-- Claim C8: each of the four failure conditions prints exactly one
diagnostic on standard error and exits with status 1, and every terminating
run exits 1 -- exit status 0 never occurs. -/
theorem c8_fatal_errors (env : XEnv) (iters : List IterInput) (it : IterInput)
    (rest : List IterInput) (outs errs : List String) (code : Nat) :
    (env.displayOpens = false →
      runProgram env iters =
        ([], ["Failed to initialize Xkb extension for display " ++ env.display
              ++ "\n"], some 1)) ∧
    (env.displayOpens = true → env.getKeyboardOk = false →
      runProgram env iters =
        ([], ["XkbGetKeyboard() failed for display " ++ squote ++ env.display
              ++ squote ++ "\n"], some 1)) ∧
    (env.displayOpens = true → env.getKeyboardOk = true →
      env.selectEventsOk = false →
      runProgram env iters = ([], ["XkbSelectEvents() failed\n"], some 1)) ∧
    (env.displayOpens = true → env.getKeyboardOk = true →
      env.selectEventsOk = true → it.ctrlStatus ≠ Success →
      runProgram env (it :: rest) =
        ([(modPart it.state.latched_mods it.state.locked_mods).1],
         ["XkbGetControls() returned " ++ toString it.ctrlStatus], some 1)) ∧
    (runProgram env iters = (outs, errs, some code) → code = 1) := by
  refine ⟨fun h1 => ?_, fun h1 h2 => ?_, fun h1 h2 h3 => ?_, fun h1 h2 h3 h4 => ?_,
    fun h => ?_⟩
  · rw [runProgram, if_pos h1]
  · rw [runProgram, if_neg (by simp [h1]), if_pos h2]
  · rw [runProgram, if_neg (by simp [h1]), if_neg (by simp [h2]), if_pos h3]
  · rw [runProgram, if_neg (by simp [h1]), if_neg (by simp [h2]),
      if_neg (by simp [h3]), runLoop, if_pos h4]
  · rw [runProgram] at h
    split_ifs at h with ha hb hc
    · simp only [Prod.mk.injEq, Option.some.injEq] at h
      exact h.2.2.symm
    · simp only [Prod.mk.injEq, Option.some.injEq] at h
      exact h.2.2.symm
    · simp only [Prod.mk.injEq, Option.some.injEq] at h
      exact h.2.2.symm
    · exact (runLoop_exit iters outs errs code h).1

/-- Witness for claim C8 on a failing XkbOpenDisplay call. -/
theorem c8_fatal_errors_witness :
    runProgram ⟨false, "disp", true, true⟩ [] =
      ([], ["Failed to initialize Xkb extension for display " ++ "disp" ++ "\n"],
       some 1) :=
  (c8_fatal_errors ⟨false, "disp", true, true⟩ [] ⟨⟨0, 0, 0, 0⟩, 0, 0, 0, []⟩ []
    [] [] 0).1 rfl

/-- Claim C10: the steady-state loop never consults the XkbGetState return
status -- the rendered output is invariant under arbitrary changes to it --
and a terminating run with a diagnostic can only come from a failed
XkbGetControls call; when every controls fetch succeeds nothing is printed
to standard error and the loop never exits. -/
theorem c10_state_fetch_unchecked (iters : List IterInput) (g : IterInput → Nat)
    (outs errs : List String) (code : Nat) :
    runLoop (iters.map fun it => { it with getStateStatus := g it }) = runLoop iters ∧
    (runLoop iters = (outs, errs, some code) →
      code = 1 ∧ ∃ it ∈ iters, it.ctrlStatus ≠ Success) ∧
    ((∀ it ∈ iters, it.ctrlStatus = Success) →
      (runLoop iters).2.1 = [] ∧ (runLoop iters).2.2 = none) :=
  ⟨runLoop_ignores_state_status g iters, runLoop_exit iters outs errs code,
   runLoop_ok iters⟩

/-- Witness for claim C10: a failed state fetch (status 5) leaves the run
unchanged, and with the controls fetch succeeding there is no diagnostic and
no exit. -/
theorem c10_state_fetch_unchecked_witness :
    runLoop [⟨⟨0, 0, 0, 0⟩, 5, 0, 0, []⟩] = runLoop [⟨⟨0, 0, 0, 0⟩, 0, 0, 0, []⟩] ∧
    (runLoop [⟨⟨0, 0, 0, 0⟩, 0, 0, 0, []⟩]).2.1 = [] ∧
    (runLoop [⟨⟨0, 0, 0, 0⟩, 0, 0, 0, []⟩]).2.2 = none :=
  ⟨(c10_state_fetch_unchecked [⟨⟨0, 0, 0, 0⟩, 0, 0, 0, []⟩] (fun _ => 5) [] [] 0).1,
   (c10_state_fetch_unchecked [⟨⟨0, 0, 0, 0⟩, 0, 0, 0, []⟩] (fun _ => 5) [] [] 0).2.2
     (by decide)⟩

end Keystatus
